import Mathlib

/-!
Verification of the ScriptPolish server core.

Shallow embedding of the decision logic of the ScriptPolish backend
(`src/server.js` and its sibling revisions under `src/unnamed/`):

* the quality-score computation of `/save-correction` (Levenshtein edit
  distance, the `min(100, Math.round((d / len) * 1000))` formula);
* the topic classifier `analyzeTopicCategory`;
* the example selector `selectBestExamples`;
* the retry wrapper around the rewrite completion call of `/polish`;
* the profile update of `/analyze-voice`;
* the `polish_history` update of `/save-correction`;
* the word-count and validation logic of `/save-correction`;
* the response assembly of `/polish`.

External collaborators (the Groq completion client, the Supabase store,
`JSON.parse`) are modelled by their outcomes: a completion call becomes a
value describing what it returned or whether it threw, a table becomes a
Lean list of rows, a parse becomes the optional parsed value.  JavaScript
strings are modelled as Lean strings (lists of characters), JavaScript
numbers on the integer-valued paths as `Nat`.
-/

namespace ScriptPolish

/-! ## Levenshtein edit distance

`src/server.js` line 199 computes `levenshtein(aiPolishedScript,
userFinalScript)` via the `levenshtein-edit-distance` npm package, an
external dependency whose documented contract is the minimum number of
single-character insertions, deletions and substitutions turning one
string into the other.  We embed it as the standard recursion and prove
below (`levenshtein_isLeast_aligns`) that this recursion is indeed that
minimum, phrased via the alignment relation `Aligns`. -/

def levenshtein : List Char → List Char → Nat
  | [], ys => ys.length
  | _ :: xs, [] => xs.length + 1
  | x :: xs, y :: ys =>
    min (min (levenshtein xs ys + (if x = y then 0 else 1))
             (levenshtein (x :: xs) ys + 1))
        (levenshtein xs (y :: ys) + 1)
termination_by xs ys => xs.length + ys.length

/-- `Aligns xs ys n` holds when there is an edit script of `n`
single-character insertions, deletions and substitutions transforming
`xs` into `ys` (matched characters cost nothing). -/
inductive Aligns : List Char → List Char → Nat → Prop
  | nil : Aligns [] [] 0
  | keep (c : Char) {xs ys n} : Aligns xs ys n → Aligns (c :: xs) (c :: ys) n
  | subst (x y : Char) {xs ys n} : Aligns xs ys n → Aligns (x :: xs) (y :: ys) (n + 1)
  | ins (y : Char) {xs ys n} : Aligns xs ys n → Aligns xs (y :: ys) (n + 1)
  | del (x : Char) {xs ys n} : Aligns xs ys n → Aligns (x :: xs) ys (n + 1)

theorem levenshtein_nil_left (ys : List Char) : levenshtein [] ys = ys.length := by
  rw [levenshtein]

theorem levenshtein_nil_right (xs : List Char) : levenshtein xs [] = xs.length := by
  cases xs with
  | nil => rw [levenshtein]
  | cons x xs => rw [levenshtein]; rfl

theorem levenshtein_cons_cons (x y : Char) (xs ys : List Char) :
    levenshtein (x :: xs) (y :: ys) =
      min (min (levenshtein xs ys + (if x = y then 0 else 1))
               (levenshtein (x :: xs) ys + 1))
          (levenshtein xs (y :: ys) + 1) := by
  rw [levenshtein]

theorem lev_le_keep (c : Char) (xs ys : List Char) :
    levenshtein (c :: xs) (c :: ys) ≤ levenshtein xs ys := by
  rw [levenshtein_cons_cons]
  have h : (if c = c then 0 else 1) = 0 := by simp
  omega

theorem lev_le_subst (x y : Char) (xs ys : List Char) :
    levenshtein (x :: xs) (y :: ys) ≤ levenshtein xs ys + 1 := by
  rw [levenshtein_cons_cons]
  have h : (if x = y then 0 else 1) ≤ 1 := by split <;> omega
  omega

theorem lev_le_ins (xs : List Char) (y : Char) (ys : List Char) :
    levenshtein xs (y :: ys) ≤ levenshtein xs ys + 1 := by
  cases xs with
  | nil => simp [levenshtein_nil_left]
  | cons a as => rw [levenshtein_cons_cons]; omega

theorem lev_le_del (x : Char) (xs ys : List Char) :
    levenshtein (x :: xs) ys ≤ levenshtein xs ys + 1 := by
  cases ys with
  | nil => simp [levenshtein_nil_right]
  | cons b bs => rw [levenshtein_cons_cons]; omega

theorem levenshtein_self (xs : List Char) : levenshtein xs xs = 0 := by
  induction xs with
  | nil => rw [levenshtein_nil_left]; rfl
  | cons x xs ih =>
    have h1 := lev_le_keep x xs xs
    omega

theorem aligns_nil_left (ys : List Char) : Aligns [] ys ys.length := by
  induction ys with
  | nil => exact .nil
  | cons y ys ih => exact .ins y ih

theorem aligns_nil_right (xs : List Char) : Aligns xs [] xs.length := by
  induction xs with
  | nil => exact .nil
  | cons x xs ih => exact .del x ih

/-- The recursion attains an alignment: there is an edit script of exactly
`levenshtein xs ys` operations. -/
theorem aligns_levenshtein (xs : List Char) : ∀ ys, Aligns xs ys (levenshtein xs ys) := by
  induction xs with
  | nil =>
    intro ys
    rw [levenshtein_nil_left]
    exact aligns_nil_left ys
  | cons x xs ihx =>
    intro ys
    induction ys with
    | nil =>
      rw [levenshtein_nil_right]
      exact aligns_nil_right (x :: xs)
    | cons y ys ihy =>
      rw [levenshtein_cons_cons]
      rcases min_choice (min (levenshtein xs ys + (if x = y then 0 else 1))
          (levenshtein (x :: xs) ys + 1)) (levenshtein xs (y :: ys) + 1) with h | h
      · rw [h]
        rcases min_choice (levenshtein xs ys + (if x = y then 0 else 1))
            (levenshtein (x :: xs) ys + 1) with h2 | h2
        · rw [h2]
          by_cases hxy : x = y
          · subst hxy
            simpa [if_pos rfl] using Aligns.keep x (ihx ys)
          · simpa [if_neg hxy] using Aligns.subst x y (ihx ys)
        · rw [h2]
          exact Aligns.ins y ihy
      · rw [h]
        exact Aligns.del x (ihx (y :: ys))

theorem levenshtein_le_of_aligns {xs ys : List Char} {n : Nat}
    (h : Aligns xs ys n) : levenshtein xs ys ≤ n := by
  induction h with
  | nil => simp [levenshtein_nil_left]
  | keep c h ih => exact le_trans (lev_le_keep c _ _) ih
  | subst x y h ih => exact le_trans (lev_le_subst x y _ _) (by omega)
  | ins y h ih => exact le_trans (lev_le_ins _ y _) (by omega)
  | del x h ih => exact le_trans (lev_le_del x _ _) (by omega)

/-- `levenshtein` is the least cost of any insert/delete/substitute edit
script: the "minimum single-character insert/delete/substitute edit
distance". -/
theorem levenshtein_isLeast_aligns (xs ys : List Char) :
    IsLeast {n : Nat | Aligns xs ys n} (levenshtein xs ys) :=
  ⟨aligns_levenshtein xs ys, fun _ h => levenshtein_le_of_aligns h⟩

/-! ## The quality score of `/save-correction`

`src/server.js` lines 199-202:
```
const editDistance = levenshtein(aiPolishedScript, userFinalScript);
const qualityScore = Math.min(100, Math.round((editDistance / aiPolishedScript.length) * 1000));
```
The arithmetic is carried out on exact rationals (the values involved are
small enough that IEEE doubles represent the products exactly up to the
final division, whose rounding is absorbed by `Math.round`); we embed the
non-negative case of `Math.round(num / den)`, which rounds half-up, as
exact natural-number arithmetic. -/

/-- JavaScript `Math.round(num / den)` for natural `num`, `den`:
round-half-up of the exact quotient. -/
def jsRoundDiv (num den : Nat) : Nat := (2 * num + den) / (2 * den)

/-- The quality score computed by `/save-correction`
(`src/server.js:199-202`). -/
def qualityScore (aiPolishedScript userFinalScript : String) : Nat :=
  min 100 (jsRoundDiv (levenshtein aiPolishedScript.toList userFinalScript.toList * 1000)
    aiPolishedScript.length)

/-- `jsRoundDiv` agrees with mathematical round-half-up (Mathlib's `round`)
of the exact rational quotient. -/
theorem jsRoundDiv_eq_round (num den : Nat) (h : 0 < den) :
    (jsRoundDiv num den : ℤ) = round ((num : ℚ) / den) := by
  have hden : (den : ℚ) ≠ 0 := Nat.cast_ne_zero.mpr h.ne'
  have key : (num : ℚ) / den + 1 / 2 = ((2 * num + den : ℕ) : ℚ) / ((2 * den : ℕ) : ℚ) := by
    push_cast
    field_simp
    ring
  have hnn : (0 : ℚ) ≤ ((2 * num + den : ℕ) : ℚ) / ((2 * den : ℕ) : ℚ) := by positivity
  rw [round_eq, key, ← Int.natCast_floor_eq_floor hnn, Nat.floor_div_eq_div]
  rfl

theorem String_length_pos_of_ne_empty {s : String} (h : s ≠ "") : 0 < s.length := by
  cases s with
  | mk data =>
    cases data with
    | nil => exact absurd rfl h
    | cons c cs => simp [String.length]

/-- C2: for every pair of strings with `aiPolishedScript` non-empty,
`/save-correction` computes the quality score exactly as
`min(100, round((editDistance / length(ai)) * 1000))`, where the edit
distance is the minimum single-character insert/delete/substitute
(Levenshtein) distance, i.e. the least cost over all alignments. -/
theorem qualityScore_is_min_round_editDistance (a b : String) (h : a ≠ "") :
    IsLeast {n : Nat | Aligns a.toList b.toList n} (levenshtein a.toList b.toList) ∧
    (qualityScore a b : ℤ) =
      min 100 (round (((levenshtein a.toList b.toList : ℚ) / a.length) * 1000)) := by
  refine ⟨levenshtein_isLeast_aligns _ _, ?_⟩
  have hlen : 0 < a.length := String_length_pos_of_ne_empty h
  have hq : ((levenshtein a.toList b.toList : ℚ) / a.length) * 1000 =
      ((levenshtein a.toList b.toList * 1000 : ℕ) : ℚ) / (a.length : ℚ) := by
    push_cast
    ring
  rw [qualityScore, Nat.cast_min, jsRoundDiv_eq_round _ _ hlen, hq]
  rfl

/-- C2 witness: instantiation at `a = "abc"`, `b = "abcd"` (the spec's
end-to-end scenario 3). -/
theorem qualityScore_is_min_round_editDistance_witness :
    IsLeast {n : Nat | Aligns "abc".toList "abcd".toList n}
      (levenshtein "abc".toList "abcd".toList) ∧
    (qualityScore "abc" "abcd" : ℤ) =
      min 100 (round (((levenshtein "abc".toList "abcd".toList : ℚ) / "abc".length) * 1000)) :=
  qualityScore_is_min_round_editDistance "abc" "abcd" (by decide)

/-- C4: for all non-empty strings `a`, `b`, the quality score lies in
`[0, 100]`, and the score of a string against itself is `0`. -/
theorem qualityScore_bounds (a b : String) (ha : a ≠ "") (_hb : b ≠ "") :
    0 ≤ qualityScore a b ∧ qualityScore a b ≤ 100 ∧ qualityScore a a = 0 := by
  refine ⟨Nat.zero_le _, min_le_left _ _, ?_⟩
  have hlen : 0 < a.length := String_length_pos_of_ne_empty ha
  rw [qualityScore, levenshtein_self]
  have h0 : jsRoundDiv (0 * 1000) a.length = 0 := by
    rw [jsRoundDiv]
    exact Nat.div_eq_of_lt (by omega)
  rw [h0]
  rfl

/-- C4 witness: instantiation at `a = "abc"`, `b = "abcd"`. -/
theorem qualityScore_bounds_witness :
    0 ≤ qualityScore "abc" "abcd" ∧ qualityScore "abc" "abcd" ≤ 100 ∧
    qualityScore "abc" "abc" = 0 :=
  qualityScore_bounds "abc" "abcd" (by decide) (by decide)

/-! ## The topic classifier `analyzeTopicCategory`

`src/server.js` lines 29-63.  The Groq completion call is an external
collaborator; its possible outcomes at the point of
`chatCompletion.choices[0]?.message?.content.trim() || "Other"` are:

* the call (or anything before it) threw — caught by the `try`/`catch`,
  which returns `"Other"` (`threw`);
* `choices[0]` or `message` is absent — the optional chain short-circuits
  to `undefined`, `undefined || "Other"` yields `"Other"` (`noChoice`);
* `message` exists but `content` is absent — `.trim()` is called on
  `undefined` and throws a `TypeError`, caught by the `catch`, returning
  `"Other"` (`noContent`);
* `content` is a string `s` — `s.trim() || "Other"` yields the trimmed
  string, or `"Other"` when it is empty (`content s`). -/

inductive CompletionOutcome where
  | threw
  | noChoice
  | noContent
  | content (s : String)

/-- The fixed 9-label category set of `src/server.js:31-34`. -/
def predefinedCategories : List String :=
  ["Productivity", "Tech", "Finance", "Student Advice",
   "Health", "Relationships", "Creator Economy", "Philosophy", "Other"]

/-- JavaScript `String.prototype.trim`: strip leading and trailing
whitespace. -/
def jsTrim (s : String) : String :=
  String.mk (((s.toList.dropWhile Char.isWhitespace).reverse.dropWhile
    Char.isWhitespace).reverse)

/-- `analyzeTopicCategory` (`src/server.js:29-63`), as a function of the
completion call's outcome.  The classifier sends the leading 2000
characters of the script to the model; the returned label depends only on
the completion outcome, which is what we model.  The inner `if` is the JS
`content.trim() || "Other"` (empty string is falsy), the outer `if` is
the `predefinedCategories.includes(category)` allow-list check. -/
def analyzeTopicCategory (o : CompletionOutcome) : String :=
  match o with
  | .threw => "Other"
  | .noChoice => "Other"
  | .noContent => "Other"
  | .content s =>
    if (if jsTrim s = "" then "Other" else jsTrim s) ∈ predefinedCategories then
      (if jsTrim s = "" then "Other" else jsTrim s)
    else "Other"

/-- C6: the classifier always returns a member of the fixed 9-label set;
any returned text whose trimmed form is not exactly a label yields
`"Other"`; any failure (throw, missing choice, missing content) yields
`"Other"`.  The result is a total `String`-valued function of the
outcome: no classification failure propagates to the caller. -/
theorem analyzeTopicCategory_membership :
    (∀ o : CompletionOutcome, analyzeTopicCategory o ∈ predefinedCategories) ∧
    (∀ s : String, jsTrim s ∉ predefinedCategories →
      analyzeTopicCategory (.content s) = "Other") ∧
    analyzeTopicCategory .threw = "Other" ∧
    analyzeTopicCategory .noChoice = "Other" ∧
    analyzeTopicCategory .noContent = "Other" := by
  refine ⟨?_, ?_, rfl, rfl, rfl⟩
  · intro o
    cases o with
    | threw => decide
    | noChoice => decide
    | noContent => decide
    | content s =>
      rw [analyzeTopicCategory]
      by_cases hm : (if jsTrim s = "" then "Other" else jsTrim s) ∈ predefinedCategories
      · rw [if_pos hm]; exact hm
      · rw [if_neg hm]; decide
  · intro s hs
    by_cases he : jsTrim s = ""
    · simp only [analyzeTopicCategory, he]
      decide
    · rw [analyzeTopicCategory, if_neg he, if_neg hs]

/-- C6 witness: instantiation of the hypothesis-bearing conjunct at the
non-label output `"Sports"` (and a sample of the closed conjuncts). -/
theorem analyzeTopicCategory_membership_witness :
    analyzeTopicCategory (.content "Sports") = "Other" ∧
    analyzeTopicCategory (.content " Tech ") ∈ predefinedCategories ∧
    analyzeTopicCategory .threw = "Other" :=
  ⟨analyzeTopicCategory_membership.2.1 "Sports" (by decide),
   analyzeTopicCategory_membership.1 (.content " Tech "),
   analyzeTopicCategory_membership.2.2.1⟩

/-! ## The word count of `/save-correction`

`src/server.js` line 215 stores
`word_count: userFinalScript.split(' ').length`.  JavaScript
`split(' ')` with the one-character separator string `' '` cuts at every
single space character and keeps empty segments (`''.split(' ')` is
`['']`, `'a  b'.split(' ')` is `['a', '', 'b']`). -/

/-- Split a character list at every character satisfying `p`, keeping
empty segments — the semantics of JS `split` with a one-character
separator (for `p` matching exactly that character). -/
def splitChars (p : Char → Bool) : List Char → List (List Char)
  | [] => [[]]
  | c :: cs =>
    if p c then [] :: splitChars p cs
    else
      match splitChars p cs with
      | [] => [[c]]
      | t :: ts => (c :: t) :: ts

/-- The stored `word_count` (`src/server.js:215`):
`userFinalScript.split(' ').length`. -/
def wordCount (userFinalScript : String) : Nat :=
  (splitChars (fun c => c = ' ') userFinalScript.toList).length

/-- Modelled from the spec: the "count of whitespace-delimited tokens",
i.e. the number of maximal non-empty runs of non-whitespace characters. -/
def whitespaceTokenCount (s : String) : Nat :=
  ((splitChars Char.isWhitespace s.toList).filter (fun t => ¬ t.isEmpty)).length

theorem splitChars_ne_nil (p : Char → Bool) (l : List Char) : splitChars p l ≠ [] := by
  cases l with
  | nil => simp [splitChars]
  | cons c cs =>
    rw [splitChars]
    split
    · simp
    · split <;> simp

theorem splitChars_length (p : Char → Bool) (l : List Char) :
    (splitChars p l).length = l.countP p + 1 := by
  induction l with
  | nil => rfl
  | cons c cs ih =>
    rw [splitChars]
    by_cases hc : p c
    · simp [hc, ih, List.countP_cons]
    · have hne := splitChars_ne_nil p cs
      cases hsp : splitChars p cs with
      | nil => exact absurd hsp hne
      | cons t ts =>
        rw [hsp] at ih
        simp only [List.length_cons] at ih ⊢
        simp [List.countP_cons, hc]
        omega

/-- C7 counterexample: for `userFinalScript = "a\nb"` (two
whitespace-delimited tokens separated by a newline), the stored
`word_count` is `1`, not the token count `2`; for `"a  b"` (double
space) it is `3`, not `2`. -/
theorem wordCount_ne_whitespaceTokenCount :
    wordCount "a\nb" = 1 ∧ whitespaceTokenCount "a\nb" = 2 ∧
    wordCount "a  b" = 3 ∧ whitespaceTokenCount "a  b" = 2 := by
  decide

/-- C7 amended: the stored `word_count` is the number of single-space
(U+0020)-separated segments of the final script, i.e. the number of space
characters plus one — not the count of whitespace-delimited tokens (the
two differ on consecutive spaces, leading/trailing spaces, and non-space
whitespace). -/
theorem wordCount_eq_spaces_succ (s : String) :
    wordCount s = s.toList.countP (fun c => c = ' ') + 1 :=
  splitChars_length _ _

/-! ## `/save-correction`: validation and score evaluation

`src/server.js` lines 185-243.  The request-body fields are strings; a
missing or empty field is falsy in JS, which we model as the empty
string.  The endpoint validates all four fields (line 194) and returns a
400 before the quality-score formula at line 202 is ever evaluated. -/

/-- The validation and score-computation prefix of `/save-correction`
(`src/server.js:194-202`): reject when any required field is falsy,
otherwise compute the quality score.  The returned pair carries the score
and the stored word count of the new `VoiceExample`. -/
def saveCorrectionScore (userId historyId aiPolishedScript userFinalScript : String) :
    Except String (Nat × Nat) :=
  if userId = "" ∨ historyId = "" ∨ aiPolishedScript = "" ∨ userFinalScript = "" then
    .error "Missing data for learning"
  else
    .ok (qualityScore aiPolishedScript userFinalScript, wordCount userFinalScript)

/-- C9: the quality-score division is never a division by zero: whenever
`/save-correction` reaches the formula (the `.ok` branch), the required
field validation has already rejected an empty `aiPolishedScript`, so
its length is positive at every evaluation of the formula. -/
theorem saveCorrectionScore_den_pos (userId historyId ai final : String) :
    saveCorrectionScore userId historyId ai final = .error "Missing data for learning" ∨
    (0 < ai.length ∧
      saveCorrectionScore userId historyId ai final = .ok (qualityScore ai final, wordCount final)) := by
  rw [saveCorrectionScore]
  by_cases h : userId = "" ∨ historyId = "" ∨ ai = "" ∨ final = ""
  · left
    rw [if_pos h]
  · right
    refine ⟨String_length_pos_of_ne_empty (fun he => h (Or.inr (Or.inr (Or.inl he)))), ?_⟩
    rw [if_neg h]

/-! ## `/save-correction`: the `polish_history` update

`src/server.js` lines 223-230: the update is filtered by
`.eq('id', historyId).eq('user_id', userId)`, so with the service-role
client (which bypasses row-level security) the only rows that can be
touched are rows whose `id` and `user_id` both match. -/

structure PolishHistoryRecord where
  id : Nat
  userId : Nat
  rawScript : String
  aiPolishedScript : String
  userFinalScript : Option String
  voiceExampleId : Option Nat
deriving DecidableEq

/-- The row-level effect of the `/save-correction` history update
(`src/server.js:223-230`): set `user_final_script` and
`voice_example_id` when both filters match, leave the row unchanged
otherwise. -/
def updateHistoryRow (historyId userId : Nat) (finalScript : String) (exampleId : Nat)
    (r : PolishHistoryRecord) : PolishHistoryRecord :=
  if r.id = historyId ∧ r.userId = userId then
    { r with userFinalScript := some finalScript, voiceExampleId := some exampleId }
  else r

/-- The table-level effect of the update: every row of `polish_history`
passes through the filter. -/
def updatePolishHistory (table : List PolishHistoryRecord) (historyId userId : Nat)
    (finalScript : String) (exampleId : Nat) : List PolishHistoryRecord :=
  table.map (updateHistoryRow historyId userId finalScript exampleId)

theorem updateHistoryRow_unchanged (historyId userId : Nat) (fs : String) (ex : Nat)
    {r : PolishHistoryRecord} (h : updateHistoryRow historyId userId fs ex r ≠ r) :
    r.id = historyId ∧ r.userId = userId := by
  by_contra hc
  exact h (by rw [updateHistoryRow, if_neg hc])

/-- C8: the `/save-correction` update of `polish_history` is scoped to
both the record id and the requesting user's id: any row the update
modifies is owned by the requesting user (and is the requested record).  -/
theorem updatePolishHistory_owner_scoped (table : List PolishHistoryRecord)
    (historyId userId : Nat) (fs : String) (ex : Nat) (i : Nat)
    (h : (updatePolishHistory table historyId userId fs ex)[i]? ≠ table[i]?) :
    ∃ r, table[i]? = some r ∧ r.userId = userId ∧ r.id = historyId := by
  rw [updatePolishHistory, List.getElem?_map] at h
  cases hr : table[i]? with
  | none => rw [hr] at h; exact absurd rfl h
  | some r =>
    rw [hr] at h
    have hne : updateHistoryRow historyId userId fs ex r ≠ r := by
      intro he
      exact h (by simp [he])
    have := updateHistoryRow_unchanged historyId userId fs ex hne
    exact ⟨r, rfl, this.2, this.1⟩

/-- C8 witness: a concrete one-row table where the update does modify the
row; the theorem yields that the row is owned by the requesting user. -/
theorem updatePolishHistory_owner_scoped_witness :
    ∃ r, ([⟨1, 2, "raw", "ai", none, none⟩] :
        List PolishHistoryRecord)[0]? = some r ∧ r.userId = 2 ∧ r.id = 1 :=
  updatePolishHistory_owner_scoped [⟨1, 2, "raw", "ai", none, none⟩] 1 2 "final" 9 0
    (by decide)

/-! ## The example selector `selectBestExamples`

`src/server.js` lines 66-84:
```
.from('voice_examples').select('script_text')
.eq('user_id', userId)
.order('topic_category', { ascending: topic !== 'Other' })
.order('quality_score', { ascending: false })
.order('created_at', { ascending: false })
.limit(5)
```
The store is modelled as a list of rows; `ORDER BY` on the three columns
is a lexicographic three-key sort (the text column `topic_category`
compares by the collation order, modelled as ordinary lexicographic
character-code comparison, which agrees with any common collation on the
ASCII category labels used here); `limit(5)` is `take 5`.  Ties on all
three keys are left in store order (a stable sort), which `ORDER BY`
leaves unspecified. -/

structure VoiceExample where
  userId : Nat
  scriptText : String
  topicCategory : String
  qualityScore : Nat
  createdAt : Nat
deriving DecidableEq

/-- Lexicographic character-code comparison (strict) on character lists. -/
def charListLt : List Char → List Char → Bool
  | [], [] => false
  | [], _ :: _ => true
  | _ :: _, [] => false
  | a :: as, b :: bs =>
    if a.toNat < b.toNat then true
    else if b.toNat < a.toNat then false
    else charListLt as bs

/-- Strict text-column comparison on strings. -/
def strLt (a b : String) : Bool := charListLt a.toList b.toList

/-- The three-key `ORDER BY` comparison of `selectBestExamples`
(`src/server.js:73-75`): `topic_category` ascending exactly when the
requested `topic` is not `"Other"` (descending otherwise), then
`quality_score` descending, then `created_at` descending.  `e1` may come
before `e2` exactly when this returns `true`. -/
def exampleLE (topic : String) (e1 e2 : VoiceExample) : Bool :=
  if e1.topicCategory ≠ e2.topicCategory then
    (if topic ≠ "Other" then strLt e1.topicCategory e2.topicCategory
     else strLt e2.topicCategory e1.topicCategory)
  else if e1.qualityScore ≠ e2.qualityScore then e2.qualityScore < e1.qualityScore
  else e2.createdAt ≤ e1.createdAt

/-- Insert into a sorted list, keeping earlier elements first on ties
(stability). -/
def insertLE {α : Type} (le : α → α → Bool) (a : α) : List α → List α
  | [] => [a]
  | b :: l => if le a b then a :: b :: l else b :: insertLE le a l

/-- Stable insertion sort by `le`. -/
def sortLE {α : Type} (le : α → α → Bool) : List α → List α
  | [] => []
  | a :: l => insertLE le a (sortLE le l)

/-- `selectBestExamples(userId, topic)` (`src/server.js:66-84`) over a
modelled `voice_examples` store: filter by owner, order by the three-key
comparison, take 5, project `script_text`. -/
def selectBestExamples (store : List VoiceExample) (userId : Nat) (topic : String) :
    List String :=
  ((sortLE (exampleLE topic) (store.filter (fun e => e.userId = userId))).take 5).map
    (fun e => e.scriptText)

/-- A store of five examples, all owned by user `1`, with five distinct
topics (none `"Other"`), distinct quality scores and distinct creation
times. -/
def c1Store : List VoiceExample :=
  [⟨1, "sFinance", "Finance", 10, 1⟩,
   ⟨1, "sHealth", "Health", 20, 2⟩,
   ⟨1, "sPhilosophy", "Philosophy", 30, 3⟩,
   ⟨1, "sProductivity", "Productivity", 40, 4⟩,
   ⟨1, "sTech", "Tech", 90, 5⟩]

/-- C1: evaluation of `selectBestExamples` at a failing input.  The user
owns five examples with distinct topics; the requested topic is
`"Tech"`, and the store's unique `"Tech"` example (`"sTech"`, which also
has the highest quality score) is returned **last**, after all four
non-matching examples: the `ORDER BY topic_category ASC` of the source
sorts by the alphabetical topic name, not by whether the topic matches
the request. -/
theorem selectBestExamples_topic_not_prioritized :
    selectBestExamples c1Store 1 "Tech" =
      ["sFinance", "sHealth", "sPhilosophy", "sProductivity", "sTech"] ∧
    (c1Store.filter (fun e => e.topicCategory = "Tech")).map (fun e => e.scriptText) =
      ["sTech"] := by
  constructor
  · rfl
  · rfl

/-! ## The retry wrapper of `/polish`

`src/unnamed/part_000` lines 151-158 (the V5 revision):
```
const chatCompletion = await pRetry(() => groq.chat.completions.create(...),
  { retries: 3 });
const polishedText = chatCompletion.choices[0]?.message?.content.trim();
if (!polishedText) throw new Error("No response from AI");
```
`p-retry`'s `retries` option is the number of **retries after the first
attempt**: with `retries: 3` the operation runs at most `3 + 1 = 4`
times.  The completion call is modelled by the sequence of its per-attempt
outcomes (`attempts i` = what the `i`-th run would produce: a transient
failure or a completion text).  The empty-completion check sits after the
retry wrapper, so an empty completion consumes no further attempts. -/

/-- `pRetry(fn, { retries })` over a sequence of per-attempt outcomes,
starting at attempt index `i` with `fuel` retries left.  Returns the
first success together with the total number of attempts performed. -/
def pRetryAux {α : Type} (attempts : Nat → Except String α) (i : Nat) :
    Nat → (Except String α) × Nat
  | 0 => (attempts i, i + 1)
  | fuel + 1 =>
    match attempts i with
    | .ok a => (.ok a, i + 1)
    | .error _ => pRetryAux attempts (i + 1) fuel

/-- `pRetry(fn, { retries })`: run `fn` up to `retries + 1` times. -/
def pRetry {α : Type} (retries : Nat) (attempts : Nat → Except String α) :
    (Except String α) × Nat :=
  pRetryAux attempts 0 retries

/-- The rewrite-completion stage of `/polish`
(`src/unnamed/part_000:151-158`): the completion call wrapped in
`pRetry(..., { retries: 3 })`, followed by the (non-retried)
empty-completion check.  The second component counts the completion-call
attempts performed. -/
def polishCompletion (attempts : Nat → Except String String) :
    (Except String String) × Nat :=
  match pRetry 3 attempts with
  | (.error e, n) => (.error e, n)
  | (.ok text, n) =>
    if jsTrim text = "" then (.error "No response from AI", n) else (.ok (jsTrim text), n)

/-- C3 counterexample: with the first three attempts failing transiently
and the fourth succeeding, the `/polish` completion stage succeeds after
**4** attempts — the code performs up to 4 attempts total
(1 initial + 3 retries), not "up to 3 attempts total" as claimed. -/
theorem polishCompletion_four_attempts :
    polishCompletion
        (fun i => if i < 3 then .error "network" else .ok "polished") =
      (.ok "polished", 4) := by
  rfl

theorem pRetryAux_attempts_le {α : Type} (attempts : Nat → Except String α) :
    ∀ fuel i, (pRetryAux attempts i fuel).2 ≤ i + fuel + 1 := by
  intro fuel
  induction fuel with
  | zero => intro i; simp [pRetryAux]
  | succ fuel ih =>
    intro i
    rw [pRetryAux]
    split
    · simp
    · have := ih (i + 1)
      omega

/-- C3 amended: the rewrite completion call is retried automatically on
transient failure up to 3 retries after the initial attempt — at most
**4** attempts total — and an empty completion result is a hard error
checked after the retry wrapper: it fails the request without consuming
any further attempt. -/
theorem polishCompletion_attempt_bound (attempts : Nat → Except String String)
    (text : String) (n : Nat)
    (hok : pRetry 3 attempts = (.ok text, n)) (hempty : jsTrim text = "") :
    (polishCompletion attempts).2 ≤ 4 ∧
    polishCompletion attempts = (.error "No response from AI", n) := by
  constructor
  · rw [polishCompletion]
    cases hp : pRetry 3 attempts with
    | mk r m =>
      have hm : m ≤ 4 := by
        have := pRetryAux_attempts_le attempts 3 0
        rw [pRetry] at hp
        rw [hp] at this
        simpa using this
      cases r with
      | error e => simpa using hm
      | ok t => by_cases h : jsTrim t = "" <;> simp [h, hm]
  · rw [polishCompletion, hok]
    simp [hempty]

/-- C3 witness: an outcome sequence whose second attempt returns a
completion of only whitespace; the wrapper stops after 2 attempts and the
empty-completion check turns the success into the hard error. -/
theorem polishCompletion_attempt_bound_witness :
    (polishCompletion
        (fun i => if i = 0 then .error "network" else .ok "  ")).2 ≤ 4 ∧
    polishCompletion (fun i => if i = 0 then .error "network" else .ok "  ") =
      (.error "No response from AI", 2) :=
  polishCompletion_attempt_bound _ "  " 2 (by rfl) (by rfl)

/-! ## The profile update of `/analyze-voice`

`src/unnamed/part_000` lines 211-224 (V5; the V4.1 revision at lines
798-811 is identical at this stage):
```
const patternsText = chatCompletion.choices[0]?.message?.content.trim();
if (!patternsText) throw new Error("AI did not return patterns");
const voicePatterns = JSON.parse(patternsText);
const { error: updateError } = await supabase.from('profiles')
  .update({ voice_patterns: voicePatterns, ... }).eq('id', userId);
```
`JSON.parse` is an external runtime primitive; we model the stage by the
outcome of the model response and its parse: either there was no (or an
empty) response text, the text failed to parse as JSON, or it parsed to a
JSON value.  A thrown error is caught by the endpoint's `catch` after the
profile update was skipped.  Note that the code performs **no** check of
the parsed document's keys. -/

/-- A JSON value, as produced by `JSON.parse`. -/
inductive Json where
  | null
  | bool (b : Bool)
  | num (n : Int)
  | str (s : String)
  | arr (elems : List Json)
  | obj (fields : List (String × Json))

/-- The outcome of the pattern-extraction completion and its parse. -/
inductive ExtractionOutcome where
  | noText
  | badJson
  | parsed (v : Json)

/-- The eight mandatory top-level sections of a voice-pattern document. -/
def mandatoryPatternKeys : List String :=
  ["openings", "transitions", "sentence_structure", "emphasis_techniques",
   "vocabulary", "pacing", "conclusions", "personality_markers"]

/-- Whether a parsed document is an object carrying every mandatory
key (the document shape the extraction prompt demands under its
`voice_patterns` wrapper). -/
def hasMandatoryKeys (v : Json) : Bool :=
  match v with
  | .obj fields => mandatoryPatternKeys.all (fun k => (fields.map Prod.fst).contains k)
  | _ => false

/-- The `/analyze-voice` profile transition
(`src/unnamed/part_000:211-224`): given the stored profile and the
extraction outcome, return the new stored profile and whether the
endpoint succeeded.  No-text and parse failure throw before the update,
leaving the profile unchanged; a successful parse replaces the stored
`voice_patterns` wholesale — with no key validation. -/
def analyzeVoiceProfile (prior : Option Json) (o : ExtractionOutcome) :
    Option Json × Bool :=
  match o with
  | .noText => (prior, false)
  | .badJson => (prior, false)
  | .parsed v => (some v, true)

/-- C5 counterexample: the model response `"{}"` parses as the empty JSON
object, which is missing all eight mandatory keys — yet the endpoint
succeeds and replaces the stored profile with it: a missing-keys response
is **not** a hard error and does change the stored profile. -/
theorem analyzeVoiceProfile_accepts_missing_keys :
    analyzeVoiceProfile (some (.str "oldProfile")) (.parsed (.obj [])) =
      (some (.obj []), true) ∧
    hasMandatoryKeys (.obj []) = false ∧
    (some (Json.obj []) ≠ some (Json.str "oldProfile")) := by
  refine ⟨rfl, rfl, ?_⟩
  intro h
  exact Json.noConfusion (Option.some.inj h)

/-- C5 amended: if the model response is missing or is not valid JSON,
the operation fails and the stored profile is unchanged; on any
successful parse — mandatory keys checked nowhere — the profile is
replaced wholesale by the parsed value, never partially updated. -/
theorem analyzeVoiceProfile_atomic (prior : Option Json) (o : ExtractionOutcome) :
    (o = .noText ∨ o = .badJson → analyzeVoiceProfile prior o = (prior, false)) ∧
    (∀ v, o = .parsed v → analyzeVoiceProfile prior o = (some v, true)) := by
  constructor
  · rintro (rfl | rfl) <;> rfl
  · rintro v rfl
    rfl

/-- C5 witness: instantiations of both conjuncts at concrete outcomes. -/
theorem analyzeVoiceProfile_atomic_witness :
    analyzeVoiceProfile (some (.str "oldProfile")) .badJson =
      (some (.str "oldProfile"), false) ∧
    analyzeVoiceProfile none (.parsed .null) = (some .null, true) :=
  ⟨(analyzeVoiceProfile_atomic (some (.str "oldProfile")) .badJson).1 (Or.inr rfl),
   (analyzeVoiceProfile_atomic none (.parsed .null)).2 .null rfl⟩

/-! ## The `/polish` response after the history insert

`src/server.js` lines 154-173:
```
const { data: history, error: historyError } = await supabase
  .from('polish_history').insert({...}).select('id').single();
if (historyError) { console.error(...); }   // don't block the user
res.json({ polishedScript: polishedText,
           historyId: history ? history.id : null });
```
A failed insert yields `history = null`, which is only logged; the
response is still the 200 success JSON, with `historyId: null` (the V5
revision writes `history?.id`, making the field absent instead — both are
covered by `Option`). -/

structure PolishResponse where
  polishedScript : String
  historyId : Option Nat
deriving DecidableEq

/-- The tail of `/polish` after the rewrite completion
(`src/server.js:150-173`): the empty-completion check, then the response
assembly from the history-insert outcome (`none` models a failed insert,
whose error is logged, not thrown). -/
def polishRespond (completionText : String) (insertResult : Option Nat) :
    Except String PolishResponse :=
  if jsTrim completionText = "" then .error "No response from AI"
  else .ok ⟨jsTrim completionText, insertResult⟩

/-- C10: when the rewrite succeeds (non-empty completion) but the
`polish_history` insert fails, `/polish` still returns a success response
carrying the polished script, and its `historyId` is `null`/absent
(`none`), not a record id: a successful rewrite response need not carry a
usable `historyId`. -/
theorem polishRespond_success_on_insert_failure (completionText : String)
    (h : jsTrim completionText ≠ "") :
    polishRespond completionText none =
      .ok ⟨jsTrim completionText, none⟩ ∧
    (polishRespond completionText none).isOk = true := by
  rw [polishRespond, if_neg h]
  exact ⟨rfl, rfl⟩

/-- C10 witness: instantiation at the completion text `"polished"`. -/
theorem polishRespond_success_on_insert_failure_witness :
    polishRespond "polished" none = .ok ⟨jsTrim "polished", none⟩ ∧
    (polishRespond "polished" none).isOk = true :=
  polishRespond_success_on_insert_failure "polished" (by decide)

end ScriptPolish
